import Mathlib

/-!
Shallow embedding of `src/app.py` (AI Weather Chatbot).

The program is a turn-based chat orchestrator:
* `get_weather` issues one HTTP GET to a weather provider and converts every
  failure into a returned error record;
* `execute_tool_call` dispatches a model-requested tool invocation by name,
  parsing its JSON argument payload first;
* `chat_with_groq` appends the user message to the session history, calls the
  completion endpoint (with tool declarations and automatic tool choice),
  optionally runs one round of tool calls, resubmits without tool
  declarations, and appends the final assistant message;
* the sidebar button clears the history.

External effects are modelled as oracles passed in explicitly:
* `wenv : String → WeatherHttpOutcome` models the outcome of the weather
  HTTP request for a given city (a well-formed parsed body, an HTTPError
  raised by `raise_for_status`, or any other raised exception);
* `json_loads : String → Except String JsonObj` models `json.loads` on the
  argument payload (the error string is `str(e)` of the decode error);
* `cenv : CompletionRequest → CompletionOutcome` models
  `client.chat.completions.create` (either raising, or returning the first
  content and tool calls of the first choice message; `tool_calls = []` models
  both an absent and an empty list, which Python truthiness identifies).

Numeric JSON fields (temperature, humidity, ...) are carried as their
textual rendering: the program never computes with them, it only
interpolates them into f-strings.

Python exceptions escaping `execute_tool_call` are modelled with
`Except PyError`; `str(e)` of those exceptions is `pyErrorStr`.
-/

inductive Role
  | user
  | assistant
  | tool
  | system
deriving DecidableEq, Repr

structure ToolFunctionCall where
  name : String
  arguments : String
deriving DecidableEq, Repr

structure ToolCall where
  id : String
  function : ToolFunctionCall
deriving DecidableEq, Repr

/-- One entry of the `st.session_state.messages` list.  Keys that a given
message dict does not carry are modelled by the defaults `[]` / `none`. -/
structure Message where
  role : Role
  content : Option String
  tool_calls : List ToolCall := []
  tool_call_id : Option String := none
deriving DecidableEq, Repr

/-- One parameter in the JSON schema of a tool declaration. -/
structure ToolParamSpec where
  paramName : String
  paramType : String
  paramDescription : String
deriving DecidableEq, Repr

/-- One function-calling tool declaration (the `TOOLS` list entries). -/
structure ToolSpec where
  name : String
  description : String
  properties : List ToolParamSpec
  required : List String
deriving DecidableEq, Repr

/-- The `TOOLS` constant of `src/app.py`. -/
def TOOLS : List ToolSpec :=
  [{ name := "get_weather",
     description := "Get current weather information for a specified city",
     properties := [{ paramName := "city", paramType := "string",
                      paramDescription :=
                        "The city name (e.g., \x27London\x27, \x27New York\x27, \x27Tokyo\x27)" }],
     required := ["city"] }]

/-- The `SYSTEM_PROMPT` constant of `src/app.py`. -/
def SYSTEM_PROMPT : String :=
  "You are a helpful AI assistant with access to weather information.\nYou can look up current weather conditions for any city in the world.\n\nWhen users ask about weather, you should use the get_weather tool to fetch real-time data.\nAlways be friendly, concise, and accurate in your responses.\n\nIf a user asks about weather without specifying a city, politely ask them which city they\x27d like to know about."

/-- The seven fields `get_weather` extracts from a well-formed provider
response (`weather_info` in the source).  Numeric fields are carried as
their textual rendering. -/
structure WeatherFields where
  city : String
  country : String
  temperature : String
  feels_like : String
  humidity : String
  description : String
  wind_speed : String
deriving DecidableEq, Repr

/-- Outcome of the weather HTTP request as seen from inside the `try` block
of `get_weather`: a fully parsed well-formed body, an `HTTPError` raised by
`raise_for_status` (status code and `str(e)`), or any other raised
exception (connection errors, JSON parse errors, missing keys — all
caught by the generic `except Exception`), carrying `str(e)`. -/
inductive WeatherHttpOutcome
  | success (data : WeatherFields)
  | httpError (status : Nat) (errText : String)
  | otherError (errText : String)
deriving DecidableEq, Repr

/-- The dict returned by `get_weather`: `{"success": True, "data": ...}` or
`{"success": False, "error": ...}`. -/
inductive WeatherResult
  | ok (data : WeatherFields)
  | err (error : String)
deriving DecidableEq, Repr

/-- Embedding of `get_weather` from `src/app.py` (lines 42–86): every failure path is
captured and returned as data; a 404 gets the city-naming spelling
message, other HTTP errors and all other exceptions get generic
diagnostics. -/
def get_weather (wenv : String → WeatherHttpOutcome) (city : String) : WeatherResult :=
  match wenv city with
  | .success d => .ok d
  | .httpError status e =>
      if status = 404 then
        .err ("City \x27" ++ city ++ "\x27 not found. Please check the spelling.")
      else
        .err ("HTTP error occurred: " ++ e)
  | .otherError e => .err ("Error fetching weather data: " ++ e)

/-- A parsed JSON argument object, restricted to the string-valued flat
objects this program ever consumes. -/
abbrev JsonObj := List (String × String)

/-- Dict key access returning `none` when the key is absent. -/
def lookupKey (obj : JsonObj) (k : String) : Option String :=
  (obj.find? (fun p => p.fst == k)).map Prod.snd

/-- Exceptions that `execute_tool_call` can raise: `json.loads` failing on
the argument payload, or the `arguments["city"]` access failing. -/
inductive PyError
  | jsonDecodeError (errText : String)
  | keyError (key : String)
deriving DecidableEq, Repr

/-- Rendering str(e) of a `PyError`: the text carried by the decode error,
and the Python repr of the missing key for a key error. -/
def pyErrorStr : PyError → String
  | .jsonDecodeError m => m
  | .keyError k => "\x27" ++ k ++ "\x27"

/-- The Python method str.capitalize: first character uppercased, the rest
lowercased. -/
def pyCapitalize (s : String) : String :=
  match s.data with
  | [] => ""
  | c :: cs => String.mk (c.toUpper :: cs.map Char.toLower)

/-- The multi-line f-string rendered by `execute_tool_call` on a successful
lookup (lines 107–111 of `src/app.py`). -/
def renderWeatherSuccess (d : WeatherFields) : String :=
  "Weather in " ++ d.city ++ ", " ++ d.country ++ ":\n- Temperature: " ++
    d.temperature ++ "°C (feels like " ++ d.feels_like ++
    "°C)\n- Conditions: " ++ pyCapitalize d.description ++
    "\n- Humidity: " ++ d.humidity ++ "%\n- Wind Speed: " ++
    d.wind_speed ++ " m/s"

/-- Embedding of `execute_tool_call` from `src/app.py` (lines 89–117).  The argument
payload is parsed by `json.loads` BEFORE the name is inspected; for the
`get_weather` name the `city` key is accessed without a guard.  Both
failures raise (`Except.error`); all other paths return a string. -/
def execute_tool_call (json_loads : String → Except String JsonObj)
    (wenv : String → WeatherHttpOutcome) (tool_call : ToolCall) :
    Except PyError String :=
  let function_name := tool_call.function.name
  match json_loads tool_call.function.arguments with
  | .error m => .error (.jsonDecodeError m)
  | .ok arguments =>
    if function_name = "get_weather" then
      match lookupKey arguments "city" with
      | none => .error (.keyError "city")
      | some city =>
        match get_weather wenv city with
        | .ok d => .ok (renderWeatherSuccess d)
        | .err e => .ok e
    else
      .ok "Unknown tool"

/-- One `client.chat.completions.create(...)` request as built by
`chat_with_groq`.  `temperature_tenths` renders the float `0.7` as 7
tenths. -/
structure CompletionRequest where
  model : String
  messages : List Message
  tools : Option (List ToolSpec) := none
  tool_choice : Option String := none
  max_tokens : Nat
  temperature_tenths : Nat
deriving DecidableEq, Repr

/-- Outcome of one completion call: either it raises (any exception, with
str(e) of it), or it returns the first choice message — its content and its
tool calls.  `tool_calls = []` covers both `None` and an empty list, which
the truthiness test on response_message.tool_calls in the source
identifies. -/
inductive CompletionOutcome
  | raiseErr (errText : String)
  | reply (content : Option String) (tool_calls : List ToolCall)
deriving DecidableEq, Repr

/-- The system message prepended to history for every completion call. -/
def systemMessage : Message := { role := .system, content := some SYSTEM_PROMPT }

/-- The first completion request of a turn (lines 140–147): system prompt
plus history (already holding the new user message), with the tool
declarations and automatic tool choice. -/
def firstRequest (messages : List Message) : CompletionRequest :=
  { model := "llama-3.3-70b-versatile",
    messages := systemMessage :: messages,
    tools := some TOOLS,
    tool_choice := some "auto",
    max_tokens := 1024,
    temperature_tenths := 7 }

/-- The second completion request of a tool round (lines 180–185): system
prompt plus the extended history, with NO tool declarations and no tool
choice. -/
def secondRequest (messages : List Message) : CompletionRequest :=
  { model := "llama-3.3-70b-versatile",
    messages := systemMessage :: messages,
    max_tokens := 1024,
    temperature_tenths := 7 }

/-- The tool-result message appended for one tool call (lines 170–174),
meaningful when `execute_tool_call` returns normally on it. -/
def toolResultMessage (json_loads : String → Except String JsonObj)
    (wenv : String → WeatherHttpOutcome) (tc : ToolCall) : Message :=
  { role := .tool,
    tool_call_id := some tc.id,
    content := some ((execute_tool_call json_loads wenv tc).toOption.getD "") }

/-- The `for tool_call in response_message.tool_calls:` loop (lines
167–174): executes each call in order, appending its tool-result message;
if a call raises, the loop stops there, returning the messages appended so
far and the exception. -/
def runToolCalls (json_loads : String → Except String JsonObj)
    (wenv : String → WeatherHttpOutcome) :
    List Message → List ToolCall → List Message × Option PyError
  | msgs, [] => (msgs, none)
  | msgs, tc :: rest =>
    match execute_tool_call json_loads wenv tc with
    | .error e => (msgs, some e)
    | .ok tool_result =>
        runToolCalls json_loads wenv
          (msgs ++ [{ role := .tool, tool_call_id := some tc.id,
                      content := some tool_result }]) rest

/-- Result of one turn: the new `st.session_state.messages`, the returned
answer (`None` is possible since the final content may be `None`), and —
as observable instrumentation — the completion requests issued, in
order. -/
structure TurnResult where
  messages : List Message
  answer : Option String
  requests : List CompletionRequest
deriving DecidableEq, Repr

/-- Embedding of `chat_with_groq` from `src/app.py` (lines 120–205), with the session
history passed in and returned explicitly.  The `try` block spans both
completion calls and the tool loop; any exception from them is converted
to the diagnostic string, appended as an assistant message, and
returned. -/
def chat_with_groq (cenv : CompletionRequest → CompletionOutcome)
    (json_loads : String → Except String JsonObj)
    (wenv : String → WeatherHttpOutcome)
    (history : List Message) (user_message : String) : TurnResult :=
  let messages := history ++ [{ role := .user, content := some user_message }]
  let req1 := firstRequest messages
  match cenv req1 with
  | .raiseErr e =>
      let error_message := "Error communicating with Groq API: " ++ e
      { messages := messages ++ [{ role := .assistant, content := some error_message }],
        answer := some error_message,
        requests := [req1] }
  | .reply content tool_calls =>
    if tool_calls.isEmpty then
      { messages := messages ++ [{ role := .assistant, content := content }],
        answer := content,
        requests := [req1] }
    else
      let messages := messages ++
        [{ role := .assistant, content := some (content.getD ""),
           tool_calls := tool_calls }]
      match runToolCalls json_loads wenv messages tool_calls with
      | (msgs, some e) =>
          let error_message := "Error communicating with Groq API: " ++ pyErrorStr e
          { messages := msgs ++ [{ role := .assistant, content := some error_message }],
            answer := some error_message,
            requests := [req1] }
      | (msgs, none) =>
        let req2 := secondRequest msgs
        match cenv req2 with
        | .raiseErr e =>
            let error_message := "Error communicating with Groq API: " ++ e
            { messages := msgs ++ [{ role := .assistant, content := some error_message }],
              answer := some error_message,
              requests := [req1, req2] }
        | .reply c2 _ =>
            { messages := msgs ++ [{ role := .assistant, content := c2 }],
              answer := c2,
              requests := [req1, req2] }

/-- The sidebar "Clear Chat History" action (line 256):
`st.session_state.messages = []`. -/
def clear_chat_history (_history : List Message) : List Message := []

/-- Submitting a sequence of user turns, threading the history. -/
def run_turns (cenv : CompletionRequest → CompletionOutcome)
    (json_loads : String → Except String JsonObj)
    (wenv : String → WeatherHttpOutcome) :
    List Message → List String → List Message
  | history, [] => history
  | history, u :: us =>
      run_turns cenv json_loads wenv
        (chat_with_groq cenv json_loads wenv history u).messages us

/-- Predicate: `t` occurs as a contiguous substring of `s` (stated on the underlying
character lists). -/
def strContains (s t : String) : Prop :=
  ∃ p q : List Char, s.data = p ++ t.data ++ q

/-- The user message appended at the start of a turn (lines 130–133). -/
def userMessage (u : String) : Message := { role := .user, content := some u }

/-- A plain assistant message with the given text. -/
def assistantTextMessage (s : String) : Message :=
  { role := .assistant, content := some s }

/-- The assistant message preserving the tool-invocation requests (lines
152–165): content defaulted to `""` when `None`. -/
def assistantToolMessage (content : Option String) (tcs : List ToolCall) : Message :=
  { role := .assistant, content := some (content.getD ""), tool_calls := tcs }

/-- The diagnostic string built in the `except` handler (line 200). -/
def groqErrorMessage (e : String) : String :=
  "Error communicating with Groq API: " ++ e

/-! ### Concrete oracle instances, used by witnesses and counterexamples -/

/-- A tool call for `get_weather` whose argument payload is not valid JSON. -/
def badToolCall : ToolCall :=
  { id := "call_1", function := { name := "get_weather", arguments := "not json" } }

/-- A tool call whose name is outside the registry and whose payload is not
valid JSON. -/
def unknownBadToolCall : ToolCall :=
  { id := "call_2", function := { name := "mystery_tool", arguments := "not json" } }

/-- A tool call whose name is outside the registry with a well-formed
(empty-object) payload. -/
def unknownOkToolCall : ToolCall :=
  { id := "call_3", function := { name := "mystery_tool", arguments := "\x7b\x7d" } }

/-- A well-formed `get_weather` tool call asking for London. -/
def londonToolCall : ToolCall :=
  { id := "call_4",
    function := { name := "get_weather",
                  arguments := "\x7b\"city\": \"London\"\x7d" } }

/-- A `get_weather` tool call whose payload parses but lacks a `city` key. -/
def noCityToolCall : ToolCall :=
  { id := "call_5",
    function := { name := "get_weather",
                  arguments := "\x7b\"town\": \"London\"\x7d" } }

/-- Outcome model of json.loads on the concrete payloads above. -/
def jsonLoadsFixture : String → Except String JsonObj := fun s =>
  if s = "\x7b\"city\": \"London\"\x7d" then .ok [("city", "London")]
  else if s = "\x7b\"town\": \"London\"\x7d" then .ok [("town", "London")]
  else if s = "\x7b\x7d" then .ok []
  else .error "Expecting value: line 1 column 1 (char 0)"

/-- London scenario data from §8 of the spec: 15.2°C, feels like 14.8°C,
humidity 70%, light rain, wind 4.1 m/s, GB. -/
def londonFields : WeatherFields :=
  { city := "London", country := "GB", temperature := "15.2",
    feels_like := "14.8", humidity := "70", description := "light rain",
    wind_speed := "4.1" }

/-- Weather oracle: London resolves, every other city is a 404. -/
def wenvFixture : String → WeatherHttpOutcome := fun city =>
  if city = "London" then .success londonFields
  else .httpError 404 "404 Client Error: Not Found for url"

/-- Completion oracle requesting the invalid-JSON tool call on the first
(tool-carrying) request. -/
def cenvBadTool : CompletionRequest → CompletionOutcome := fun req =>
  if req.tools.isSome then .reply none [badToolCall]
  else .reply (some "done") []

/-- Completion oracle requesting the London tool call, then answering. -/
def cenvGoodTool : CompletionRequest → CompletionOutcome := fun req =>
  if req.tools.isSome then .reply none [londonToolCall]
  else .reply (some "It is 15.2°C with light rain in London.") []

/-- Completion oracle that never requests tools. -/
def cenvNoTool : CompletionRequest → CompletionOutcome :=
  fun _ => .reply (some "Hello!") []

/-- Completion oracle that always raises. -/
def cenvRaiseAlways : CompletionRequest → CompletionOutcome :=
  fun _ => .raiseErr "Connection error"

/-- Completion oracle requesting the London tool call first, then raising
on the second (tool-free) request. -/
def cenvRaiseSecond : CompletionRequest → CompletionOutcome := fun req =>
  if req.tools.isSome then .reply none [londonToolCall]
  else .raiseErr "rate limit exceeded"

/-! ### Helper lemmas -/

theorem runToolCalls_all_ok (json_loads : String → Except String JsonObj)
    (wenv : String → WeatherHttpOutcome) (tcs : List ToolCall)
    (h : ∀ tc ∈ tcs, (execute_tool_call json_loads wenv tc).isOk = true) :
    ∀ msgs, runToolCalls json_loads wenv msgs tcs =
      (msgs ++ tcs.map (toolResultMessage json_loads wenv), none) := by
  induction tcs with
  | nil => intro msgs; simp [runToolCalls]
  | cons tc rest ih =>
    intro msgs
    have htc := h tc (List.mem_cons_self tc rest)
    match hx : execute_tool_call json_loads wenv tc with
    | .error e => rw [hx] at htc; simp [Except.isOk, Except.toBool] at htc
    | .ok s =>
      have hrest := ih (fun x hx => h x (List.mem_cons_of_mem tc hx))
      simp only [runToolCalls, hx, hrest, List.map_cons, List.append_assoc,
        List.singleton_append]
      simp [toolResultMessage, hx, Except.toOption]

/-! ### Claims -/

/-- C2: For every city string input, the weather lookup function returns a
result value (success or failure record) and never propagates an exception
past its boundary — every transport, HTTP, and parsing failure of the
oracle is captured and returned as data. -/
theorem C2_get_weather_never_raises (wenv : String → WeatherHttpOutcome)
    (city : String) :
    (∃ d, get_weather wenv city = .ok d) ∨
    (∃ e, get_weather wenv city = .err e) := by
  cases h : wenv city with
  | success d => exact Or.inl ⟨d, by simp [get_weather, h]⟩
  | httpError st e =>
      refine Or.inr ?_
      by_cases h4 : st = 404
      · exact ⟨"City \x27" ++ city ++ "\x27 not found. Please check the spelling.",
          by simp [get_weather, h, h4]⟩
      · exact ⟨"HTTP error occurred: " ++ e, by simp [get_weather, h, h4]⟩
  | otherError e =>
      exact Or.inr ⟨"Error fetching weather data: " ++ e, by simp [get_weather, h]⟩

/-- C3: For every city name for which the weather provider responds with
HTTP status 404, the lookup returns a failure result whose reason string
includes the queried city name and suggests checking the spelling. -/
theorem C3_not_found_names_city (wenv : String → WeatherHttpOutcome)
    (city e : String) (h : wenv city = .httpError 404 e) :
    get_weather wenv city =
      .err ("City \x27" ++ city ++ "\x27 not found. Please check the spelling.") ∧
    strContains ("City \x27" ++ city ++ "\x27 not found. Please check the spelling.")
      city ∧
    strContains ("City \x27" ++ city ++ "\x27 not found. Please check the spelling.")
      "Please check the spelling." := by
  refine ⟨by simp [get_weather, h], ?_, ?_⟩
  · refine ⟨("City \x27").data,
      ("\x27 not found. Please check the spelling.").data, ?_⟩
    simp [List.append_assoc]
  · refine ⟨("City \x27" ++ city ++ "\x27 not found. ").data, [], ?_⟩
    simp

theorem C3_witness :
    get_weather wenvFixture "Zzqqxx" =
      .err ("City \x27" ++ "Zzqqxx" ++ "\x27 not found. Please check the spelling.") ∧
    strContains ("City \x27" ++ "Zzqqxx" ++ "\x27 not found. Please check the spelling.")
      "Zzqqxx" ∧
    strContains ("City \x27" ++ "Zzqqxx" ++ "\x27 not found. Please check the spelling.")
      "Please check the spelling." :=
  C3_not_found_names_city wenvFixture "Zzqqxx"
    "404 Client Error: Not Found for url" (by decide)

/-- C7 counterexample: a tool call whose name is outside the registry but
whose argument payload is not valid JSON makes the dispatcher raise
(`json.loads` runs before the name is inspected), instead of returning the
"Unknown tool" placeholder — refuting the claim as universally stated. -/
theorem C7_counterexample :
    unknownBadToolCall.function.name ≠ "get_weather" ∧
    execute_tool_call jsonLoadsFixture wenvFixture unknownBadToolCall =
      .error (.jsonDecodeError "Expecting value: line 1 column 1 (char 0)") :=
  ⟨by decide, rfl⟩

/-- C7 (amended): for every tool-invocation request whose declared name is
not `get_weather` and whose argument payload parses as JSON, the
dispatcher returns the literal "Unknown tool" placeholder rather than
raising. -/
theorem C7_unknown_tool_placeholder (json_loads : String → Except String JsonObj)
    (wenv : String → WeatherHttpOutcome) (tc : ToolCall) (args : JsonObj)
    (hname : tc.function.name ≠ "get_weather")
    (hparse : json_loads tc.function.arguments = .ok args) :
    execute_tool_call json_loads wenv tc = .ok "Unknown tool" := by
  simp [execute_tool_call, hparse, hname]

theorem C7_witness :
    execute_tool_call jsonLoadsFixture wenvFixture unknownOkToolCall =
      .ok "Unknown tool" :=
  C7_unknown_tool_placeholder jsonLoadsFixture wenvFixture unknownOkToolCall []
    (by decide) rfl

/-- C8: the "clear history" action is idempotent — from any history state,
clearing twice yields the same empty history as clearing once. -/
theorem C8_clear_history_idempotent (history : List Message) :
    clear_chat_history (clear_chat_history history) = clear_chat_history history :=
  rfl

/-- C10: the dispatcher parses the argument payload as JSON before
inspecting the tool name — an unparseable payload raises regardless of
name; for the `get_weather` name a parsed payload lacking a `city` key
raises a key error; and any such exception propagates out of the tool loop
and is caught only at the orchestrator boundary, rendered as the
completion-endpoint diagnostic message. -/
theorem C10_dispatcher_raises_caught_at_orchestrator :
    (∀ (json_loads : String → Except String JsonObj)
       (wenv : String → WeatherHttpOutcome) (tc : ToolCall) (m : String),
      json_loads tc.function.arguments = .error m →
      execute_tool_call json_loads wenv tc = .error (.jsonDecodeError m)) ∧
    (∀ (json_loads : String → Except String JsonObj)
       (wenv : String → WeatherHttpOutcome) (tc : ToolCall) (args : JsonObj),
      json_loads tc.function.arguments = .ok args →
      tc.function.name = "get_weather" →
      lookupKey args "city" = none →
      execute_tool_call json_loads wenv tc = .error (.keyError "city")) ∧
    (∀ (cenv : CompletionRequest → CompletionOutcome)
       (json_loads : String → Except String JsonObj)
       (wenv : String → WeatherHttpOutcome)
       (history : List Message) (u : String) (content : Option String)
       (tc : ToolCall) (rest : List ToolCall) (e : PyError),
      cenv (firstRequest (history ++ [{ role := Role.user, content := some u }])) =
        .reply content (tc :: rest) →
      execute_tool_call json_loads wenv tc = .error e →
      chat_with_groq cenv json_loads wenv history u =
        { messages := (history ++ [{ role := Role.user, content := some u }]) ++
            [{ role := Role.assistant, content := some (content.getD ""),
               tool_calls := tc :: rest }] ++
            [{ role := Role.assistant,
               content := some ("Error communicating with Groq API: " ++ pyErrorStr e) }],
          answer := some ("Error communicating with Groq API: " ++ pyErrorStr e),
          requests :=
            [firstRequest (history ++ [{ role := Role.user, content := some u }])] }) := by
  refine ⟨?_, ?_, ?_⟩
  · intro json_loads wenv tc m h
    simp [execute_tool_call, h]
  · intro json_loads wenv tc args hparse hname hcity
    simp [execute_tool_call, hparse, hname, hcity]
  · intro cenv json_loads wenv history u content tc rest e hr hx
    simp only [chat_with_groq, hr, List.isEmpty_cons, Bool.false_eq_true,
      if_false, runToolCalls, hx]

theorem C10_witness :
    chat_with_groq cenvBadTool jsonLoadsFixture wenvFixture [] "hi" =
      { messages := ([] ++ [{ role := Role.user, content := some "hi" }]) ++
          [{ role := Role.assistant, content := some ((none : Option String).getD ""),
             tool_calls := badToolCall :: [] }] ++
          [{ role := Role.assistant,
             content := some ("Error communicating with Groq API: " ++
               pyErrorStr (.jsonDecodeError "Expecting value: line 1 column 1 (char 0)")) }],
        answer := some ("Error communicating with Groq API: " ++
          pyErrorStr (.jsonDecodeError "Expecting value: line 1 column 1 (char 0)")),
        requests :=
          [firstRequest ([] ++ [{ role := Role.user, content := some "hi" }])] } :=
  C10_dispatcher_raises_caught_at_orchestrator.2.2 cenvBadTool jsonLoadsFixture
    wenvFixture [] "hi" none badToolCall []
    (.jsonDecodeError "Expecting value: line 1 column 1 (char 0)") rfl rfl

/-- Shape of a full tool round when every requested tool call executes
without raising: the assistant message holding the requests, then one
tool-result message per request in order, then the outcome of the second
(tool-free) completion request. -/
theorem chat_with_groq_tool_round
    (cenv : CompletionRequest → CompletionOutcome)
    (json_loads : String → Except String JsonObj)
    (wenv : String → WeatherHttpOutcome)
    (history : List Message) (u : String) (content : Option String)
    (tcs : List ToolCall)
    (hr : cenv (firstRequest (history ++ [userMessage u])) = .reply content tcs)
    (hne : tcs ≠ [])
    (hok : ∀ tc ∈ tcs, (execute_tool_call json_loads wenv tc).isOk = true) :
    chat_with_groq cenv json_loads wenv history u =
      match cenv (secondRequest (history ++ [userMessage u] ++
          [assistantToolMessage content tcs] ++
          tcs.map (toolResultMessage json_loads wenv))) with
      | .raiseErr e =>
          { messages := history ++ [userMessage u] ++
              [assistantToolMessage content tcs] ++
              tcs.map (toolResultMessage json_loads wenv) ++
              [assistantTextMessage (groqErrorMessage e)],
            answer := some (groqErrorMessage e),
            requests := [firstRequest (history ++ [userMessage u]),
              secondRequest (history ++ [userMessage u] ++
                [assistantToolMessage content tcs] ++
                tcs.map (toolResultMessage json_loads wenv))] }
      | .reply c2 _ =>
          { messages := history ++ [userMessage u] ++
              [assistantToolMessage content tcs] ++
              tcs.map (toolResultMessage json_loads wenv) ++
              [{ role := Role.assistant, content := c2 }],
            answer := c2,
            requests := [firstRequest (history ++ [userMessage u]),
              secondRequest (history ++ [userMessage u] ++
                [assistantToolMessage content tcs] ++
                tcs.map (toolResultMessage json_loads wenv))] } := by
  obtain ⟨t, ts, rfl⟩ : ∃ t ts, tcs = t :: ts := by
    cases tcs with
    | nil => exact absurd rfl hne
    | cons t ts => exact ⟨t, ts, rfl⟩
  have hrun := runToolCalls_all_ok json_loads wenv (t :: ts) hok
    ((history ++ [userMessage u]) ++ [assistantToolMessage content (t :: ts)])
  simp only [userMessage, assistantToolMessage, List.append_assoc] at hrun
  simp only [userMessage] at hr
  simp only [chat_with_groq, userMessage, assistantToolMessage,
    assistantTextMessage, groqErrorMessage, hr, List.isEmpty_cons,
    Bool.false_eq_true, if_false, hrun, List.append_assoc]

/-- C6: any error raised by the completion endpoint at either step is
caught by the orchestrator, converted into a diagnostic string, appended
to history as an assistant message, and returned as the answer of the turn; the
history accumulated up to the point of failure (the user message, and in a
tool round the assistant message with the requests and the tool messages
already appended) is kept, not rolled back.  `chat_with_groq` is a total
function of the resulting history, so the session accepts further
turns. -/
theorem C6_completion_error_caught
    (cenv : CompletionRequest → CompletionOutcome)
    (json_loads : String → Except String JsonObj)
    (wenv : String → WeatherHttpOutcome)
    (history : List Message) (u : String) :
    (∀ e : String,
      cenv (firstRequest (history ++ [userMessage u])) = .raiseErr e →
      chat_with_groq cenv json_loads wenv history u =
        { messages := history ++ [userMessage u] ++
            [assistantTextMessage (groqErrorMessage e)],
          answer := some (groqErrorMessage e),
          requests := [firstRequest (history ++ [userMessage u])] }) ∧
    (∀ (content : Option String) (tcs : List ToolCall) (e : String),
      cenv (firstRequest (history ++ [userMessage u])) = .reply content tcs →
      tcs ≠ [] →
      (∀ tc ∈ tcs, (execute_tool_call json_loads wenv tc).isOk = true) →
      cenv (secondRequest (history ++ [userMessage u] ++
        [assistantToolMessage content tcs] ++
        tcs.map (toolResultMessage json_loads wenv))) = .raiseErr e →
      chat_with_groq cenv json_loads wenv history u =
        { messages := history ++ [userMessage u] ++
            [assistantToolMessage content tcs] ++
            tcs.map (toolResultMessage json_loads wenv) ++
            [assistantTextMessage (groqErrorMessage e)],
          answer := some (groqErrorMessage e),
          requests := [firstRequest (history ++ [userMessage u]),
            secondRequest (history ++ [userMessage u] ++
              [assistantToolMessage content tcs] ++
              tcs.map (toolResultMessage json_loads wenv))] }) := by
  constructor
  · intro e hr
    simp only [userMessage] at hr
    simp only [chat_with_groq, userMessage, assistantTextMessage,
      groqErrorMessage, hr, List.append_assoc]
  · intro content tcs e hr hne hok h2
    rw [chat_with_groq_tool_round cenv json_loads wenv history u content tcs
      hr hne hok, h2]

theorem C6_witness :
    chat_with_groq cenvRaiseAlways jsonLoadsFixture wenvFixture [] "hi" =
      { messages := [] ++ [userMessage "hi"] ++
          [assistantTextMessage (groqErrorMessage "Connection error")],
        answer := some (groqErrorMessage "Connection error"),
        requests := [firstRequest ([] ++ [userMessage "hi"])] } ∧
    chat_with_groq cenvRaiseSecond jsonLoadsFixture wenvFixture []
        "weather in London" =
      { messages := [] ++ [userMessage "weather in London"] ++
          [assistantToolMessage none [londonToolCall]] ++
          [londonToolCall].map (toolResultMessage jsonLoadsFixture wenvFixture) ++
          [assistantTextMessage (groqErrorMessage "rate limit exceeded")],
        answer := some (groqErrorMessage "rate limit exceeded"),
        requests := [firstRequest ([] ++ [userMessage "weather in London"]),
          secondRequest ([] ++ [userMessage "weather in London"] ++
            [assistantToolMessage none [londonToolCall]] ++
            [londonToolCall].map (toolResultMessage jsonLoadsFixture wenvFixture))] } :=
  ⟨(C6_completion_error_caught cenvRaiseAlways jsonLoadsFixture wenvFixture []
      "hi").1 "Connection error" rfl,
   (C6_completion_error_caught cenvRaiseSecond jsonLoadsFixture wenvFixture []
      "weather in London").2 none [londonToolCall] "rate limit exceeded" rfl
      (by decide) (by decide) rfl⟩

/-- C1 counterexample: a turn whose completion response carries a
tool-invocation request (`badToolCall`, whose argument payload is not
valid JSON) ends with NO tool-result message carrying its correlation
identifier in the history, while a subsequent assistant message was
appended — refuting the claim as universally stated. -/
theorem C1_counterexample :
    cenvBadTool (firstRequest ([] ++ [userMessage "hi"])) =
      CompletionOutcome.reply none [badToolCall] ∧
    (chat_with_groq cenvBadTool jsonLoadsFixture wenvFixture [] "hi").messages =
      [userMessage "hi", assistantToolMessage none [badToolCall],
       assistantTextMessage
         (groqErrorMessage "Expecting value: line 1 column 1 (char 0)")] ∧
    ∀ m ∈ (chat_with_groq cenvBadTool jsonLoadsFixture wenvFixture [] "hi").messages,
      m.tool_call_id ≠ some badToolCall.id :=
  ⟨rfl, rfl, by decide⟩

/-- C1 (amended): for every turn in which the completion response carries
tool-invocation requests and every requested invocation executes without
raising, the history after the turn contains, in order: the assistant
message holding those requests, then one tool-result message per request
in request order, each carrying the correlation identifier of that request,
followed only by the final assistant message; the second (final)
completion request already carries all of them. -/
theorem C1_tool_round_history_order
    (cenv : CompletionRequest → CompletionOutcome)
    (json_loads : String → Except String JsonObj)
    (wenv : String → WeatherHttpOutcome)
    (history : List Message) (u : String) (content : Option String)
    (tcs : List ToolCall)
    (hr : cenv (firstRequest (history ++ [userMessage u])) = .reply content tcs)
    (hne : tcs ≠ [])
    (hok : ∀ tc ∈ tcs, (execute_tool_call json_loads wenv tc).isOk = true) :
    ∃ fin : Message, fin.role = Role.assistant ∧ fin.tool_call_id = none ∧
      (chat_with_groq cenv json_loads wenv history u).messages =
        history ++ [userMessage u] ++ [assistantToolMessage content tcs] ++
        tcs.map (fun tc =>
          { role := Role.tool, tool_call_id := some tc.id,
            content := some
              ((execute_tool_call json_loads wenv tc).toOption.getD "") }) ++
        [fin] ∧
      (chat_with_groq cenv json_loads wenv history u).requests =
        [firstRequest (history ++ [userMessage u]),
         secondRequest (history ++ [userMessage u] ++
           [assistantToolMessage content tcs] ++
           tcs.map (toolResultMessage json_loads wenv))] := by
  rw [chat_with_groq_tool_round cenv json_loads wenv history u content tcs
    hr hne hok]
  cases cenv (secondRequest (history ++ [userMessage u] ++
      [assistantToolMessage content tcs] ++
      tcs.map (toolResultMessage json_loads wenv))) with
  | raiseErr e =>
      exact ⟨assistantTextMessage (groqErrorMessage e), rfl, rfl,
        by simp [toolResultMessage], rfl⟩
  | reply c2 tcs2 =>
      exact ⟨{ role := Role.assistant, content := c2 }, rfl, rfl,
        by simp [toolResultMessage], rfl⟩

theorem C1_witness :
    ∃ fin : Message, fin.role = Role.assistant ∧ fin.tool_call_id = none ∧
      (chat_with_groq cenvGoodTool jsonLoadsFixture wenvFixture []
          "What is the weather in London?").messages =
        [] ++ [userMessage "What is the weather in London?"] ++
        [assistantToolMessage none [londonToolCall]] ++
        [londonToolCall].map (fun tc =>
          { role := Role.tool, tool_call_id := some tc.id,
            content := some
              ((execute_tool_call jsonLoadsFixture wenvFixture tc).toOption.getD "") }) ++
        [fin] ∧
      (chat_with_groq cenvGoodTool jsonLoadsFixture wenvFixture []
          "What is the weather in London?").requests =
        [firstRequest ([] ++ [userMessage "What is the weather in London?"]),
         secondRequest ([] ++ [userMessage "What is the weather in London?"] ++
           [assistantToolMessage none [londonToolCall]] ++
           [londonToolCall].map (toolResultMessage jsonLoadsFixture wenvFixture))] :=
  C1_tool_round_history_order cenvGoodTool jsonLoadsFixture wenvFixture []
    "What is the weather in London?" none [londonToolCall] rfl (by decide)
    (by decide)

/-- C9: the first completion request of every turn carries the tool
declarations with automatic tool choice; in a tool round the second
(final) completion request is built from the system instruction plus the
now-extended history and omits the tool declarations and tool choice, and
no further completion request is issued, so a second tool round is never
solicited. -/
theorem C9_second_request_omits_tools
    (cenv : CompletionRequest → CompletionOutcome)
    (json_loads : String → Except String JsonObj)
    (wenv : String → WeatherHttpOutcome)
    (history : List Message) (u : String) :
    ((chat_with_groq cenv json_loads wenv history u).requests.head? =
        some (firstRequest (history ++ [userMessage u])) ∧
      (firstRequest (history ++ [userMessage u])).tools = some TOOLS ∧
      (firstRequest (history ++ [userMessage u])).tool_choice = some "auto") ∧
    (∀ (content : Option String) (tcs : List ToolCall),
      cenv (firstRequest (history ++ [userMessage u])) = .reply content tcs →
      tcs ≠ [] →
      (∀ tc ∈ tcs, (execute_tool_call json_loads wenv tc).isOk = true) →
      (chat_with_groq cenv json_loads wenv history u).requests =
        [firstRequest (history ++ [userMessage u]),
         secondRequest (history ++ [userMessage u] ++
           [assistantToolMessage content tcs] ++
           tcs.map (toolResultMessage json_loads wenv))] ∧
      (secondRequest (history ++ [userMessage u] ++
        [assistantToolMessage content tcs] ++
        tcs.map (toolResultMessage json_loads wenv))).tools = none ∧
      (secondRequest (history ++ [userMessage u] ++
        [assistantToolMessage content tcs] ++
        tcs.map (toolResultMessage json_loads wenv))).tool_choice = none ∧
      (secondRequest (history ++ [userMessage u] ++
        [assistantToolMessage content tcs] ++
        tcs.map (toolResultMessage json_loads wenv))).messages =
        systemMessage :: (history ++ [userMessage u] ++
          [assistantToolMessage content tcs] ++
          tcs.map (toolResultMessage json_loads wenv))) := by
  constructor
  · refine ⟨?_, rfl, rfl⟩
    simp only [chat_with_groq]
    split
    · rfl
    · split
      · rfl
      · split
        · rfl
        · split
          · rfl
          · rfl
  · intro content tcs hr hne hok
    rw [chat_with_groq_tool_round cenv json_loads wenv history u content tcs
      hr hne hok]
    cases cenv (secondRequest (history ++ [userMessage u] ++
        [assistantToolMessage content tcs] ++
        tcs.map (toolResultMessage json_loads wenv))) with
    | raiseErr e => exact ⟨rfl, rfl, rfl, rfl⟩
    | reply c2 tcs2 => exact ⟨rfl, rfl, rfl, rfl⟩

theorem C9_witness :
    (chat_with_groq cenvGoodTool jsonLoadsFixture wenvFixture []
        "What is the weather in London?").requests =
      [firstRequest ([] ++ [userMessage "What is the weather in London?"]),
       secondRequest ([] ++ [userMessage "What is the weather in London?"] ++
         [assistantToolMessage none [londonToolCall]] ++
         [londonToolCall].map (toolResultMessage jsonLoadsFixture wenvFixture))] ∧
    (secondRequest ([] ++ [userMessage "What is the weather in London?"] ++
      [assistantToolMessage none [londonToolCall]] ++
      [londonToolCall].map (toolResultMessage jsonLoadsFixture wenvFixture))).tools =
      none ∧
    (secondRequest ([] ++ [userMessage "What is the weather in London?"] ++
      [assistantToolMessage none [londonToolCall]] ++
      [londonToolCall].map (toolResultMessage jsonLoadsFixture wenvFixture))).tool_choice =
      none ∧
    (secondRequest ([] ++ [userMessage "What is the weather in London?"] ++
      [assistantToolMessage none [londonToolCall]] ++
      [londonToolCall].map (toolResultMessage jsonLoadsFixture wenvFixture))).messages =
      systemMessage :: ([] ++ [userMessage "What is the weather in London?"] ++
        [assistantToolMessage none [londonToolCall]] ++
        [londonToolCall].map (toolResultMessage jsonLoadsFixture wenvFixture)) :=
  (C9_second_request_omits_tools cenvGoodTool jsonLoadsFixture wenvFixture []
    "What is the weather in London?").2 none [londonToolCall] rfl (by decide)
    (by decide)

/-- C4: for every successful weather lookup via the dispatcher, the
rendered tool-result text is exactly the success template and contains the
city, country, temperature, feels-like temperature, humidity, capitalized
description, and wind speed from the lookup data; for every failed lookup
the rendered text equals the failure reason verbatim. -/
theorem C4_rendered_tool_result
    (json_loads : String → Except String JsonObj)
    (wenv : String → WeatherHttpOutcome) (tc : ToolCall) (args : JsonObj)
    (city : String)
    (hname : tc.function.name = "get_weather")
    (hparse : json_loads tc.function.arguments = .ok args)
    (hcity : lookupKey args "city" = some city) :
    (∀ d : WeatherFields, get_weather wenv city = .ok d →
      execute_tool_call json_loads wenv tc = .ok (renderWeatherSuccess d) ∧
      strContains (renderWeatherSuccess d) d.city ∧
      strContains (renderWeatherSuccess d) d.country ∧
      strContains (renderWeatherSuccess d) d.temperature ∧
      strContains (renderWeatherSuccess d) d.feels_like ∧
      strContains (renderWeatherSuccess d) d.humidity ∧
      strContains (renderWeatherSuccess d) (pyCapitalize d.description) ∧
      strContains (renderWeatherSuccess d) d.wind_speed) ∧
    (∀ e : String, get_weather wenv city = .err e →
      execute_tool_call json_loads wenv tc = .ok e) := by
  constructor
  · intro d hd
    refine ⟨by simp [execute_tool_call, hname, hparse, hcity, hd],
      ?_, ?_, ?_, ?_, ?_, ?_, ?_⟩
    · refine ⟨("Weather in ").data,
        (", " ++ d.country ++ ":\n- Temperature: " ++ d.temperature ++
          "°C (feels like " ++ d.feels_like ++ "°C)\n- Conditions: " ++
          pyCapitalize d.description ++ "\n- Humidity: " ++ d.humidity ++
          "%\n- Wind Speed: " ++ d.wind_speed ++ " m/s").data, ?_⟩
      simp [renderWeatherSuccess, List.append_assoc]
    · refine ⟨("Weather in " ++ d.city ++ ", ").data,
        (":\n- Temperature: " ++ d.temperature ++ "°C (feels like " ++
          d.feels_like ++ "°C)\n- Conditions: " ++ pyCapitalize d.description ++
          "\n- Humidity: " ++ d.humidity ++ "%\n- Wind Speed: " ++
          d.wind_speed ++ " m/s").data, ?_⟩
      simp [renderWeatherSuccess, List.append_assoc]
    · refine ⟨("Weather in " ++ d.city ++ ", " ++ d.country ++
          ":\n- Temperature: ").data,
        ("°C (feels like " ++ d.feels_like ++ "°C)\n- Conditions: " ++
          pyCapitalize d.description ++ "\n- Humidity: " ++ d.humidity ++
          "%\n- Wind Speed: " ++ d.wind_speed ++ " m/s").data, ?_⟩
      simp [renderWeatherSuccess, List.append_assoc]
    · refine ⟨("Weather in " ++ d.city ++ ", " ++ d.country ++
          ":\n- Temperature: " ++ d.temperature ++ "°C (feels like ").data,
        ("°C)\n- Conditions: " ++ pyCapitalize d.description ++
          "\n- Humidity: " ++ d.humidity ++ "%\n- Wind Speed: " ++
          d.wind_speed ++ " m/s").data, ?_⟩
      simp [renderWeatherSuccess, List.append_assoc]
    · refine ⟨("Weather in " ++ d.city ++ ", " ++ d.country ++
          ":\n- Temperature: " ++ d.temperature ++ "°C (feels like " ++
          d.feels_like ++ "°C)\n- Conditions: " ++ pyCapitalize d.description ++
          "\n- Humidity: ").data,
        ("%\n- Wind Speed: " ++ d.wind_speed ++ " m/s").data, ?_⟩
      simp [renderWeatherSuccess, List.append_assoc]
    · refine ⟨("Weather in " ++ d.city ++ ", " ++ d.country ++
          ":\n- Temperature: " ++ d.temperature ++ "°C (feels like " ++
          d.feels_like ++ "°C)\n- Conditions: ").data,
        ("\n- Humidity: " ++ d.humidity ++ "%\n- Wind Speed: " ++
          d.wind_speed ++ " m/s").data, ?_⟩
      simp [renderWeatherSuccess, List.append_assoc]
    · refine ⟨("Weather in " ++ d.city ++ ", " ++ d.country ++
          ":\n- Temperature: " ++ d.temperature ++ "°C (feels like " ++
          d.feels_like ++ "°C)\n- Conditions: " ++ pyCapitalize d.description ++
          "\n- Humidity: " ++ d.humidity ++ "%\n- Wind Speed: ").data,
        (" m/s").data, ?_⟩
      simp [renderWeatherSuccess, List.append_assoc]
  · intro e he
    simp [execute_tool_call, hname, hparse, hcity, he]

theorem C4_witness :
    (∀ d : WeatherFields, get_weather wenvFixture "London" = .ok d →
      execute_tool_call jsonLoadsFixture wenvFixture londonToolCall =
        .ok (renderWeatherSuccess d) ∧
      strContains (renderWeatherSuccess d) d.city ∧
      strContains (renderWeatherSuccess d) d.country ∧
      strContains (renderWeatherSuccess d) d.temperature ∧
      strContains (renderWeatherSuccess d) d.feels_like ∧
      strContains (renderWeatherSuccess d) d.humidity ∧
      strContains (renderWeatherSuccess d) (pyCapitalize d.description) ∧
      strContains (renderWeatherSuccess d) d.wind_speed) ∧
    (∀ e : String, get_weather wenvFixture "London" = .err e →
      execute_tool_call jsonLoadsFixture wenvFixture londonToolCall = .ok e) :=
  C4_rendered_tool_result jsonLoadsFixture wenvFixture londonToolCall
    [("city", "London")] "London" (by decide) rfl rfl

/-- Each no-tool turn appends exactly one user and one assistant message. -/
theorem run_turns_length_no_tools
    (cenv : CompletionRequest → CompletionOutcome)
    (json_loads : String → Except String JsonObj)
    (wenv : String → WeatherHttpOutcome)
    (hc : ∀ req, ∃ c, cenv req = .reply c []) :
    ∀ (users : List String) (history : List Message),
      (run_turns cenv json_loads wenv history users).length =
        history.length + 2 * users.length := by
  intro users
  induction users with
  | nil => intro history; simp [run_turns]
  | cons u us ih =>
    intro history
    obtain ⟨c, hcr⟩ :=
      hc (firstRequest (history ++ [{ role := Role.user, content := some u }]))
    have hmsg : (chat_with_groq cenv json_loads wenv history u).messages =
        (history ++ [{ role := Role.user, content := some u }]) ++
          [{ role := Role.assistant, content := c }] := by
      simp only [chat_with_groq, hcr, List.isEmpty_nil, if_true]
    simp only [run_turns, ih, hmsg]
    simp [Nat.mul_succ]
    omega

/-- C5: submitting N user turns in each of which the completion response
carries no tool-invocation requests leaves the (initially empty) history
with length exactly 2·N — one user and one assistant message per turn. -/
theorem C5_no_tool_round_trip_length
    (cenv : CompletionRequest → CompletionOutcome)
    (json_loads : String → Except String JsonObj)
    (wenv : String → WeatherHttpOutcome)
    (hc : ∀ req, ∃ c, cenv req = .reply c []) (users : List String) :
    (run_turns cenv json_loads wenv [] users).length = 2 * users.length := by
  have h := run_turns_length_no_tools cenv json_loads wenv hc users []
  simpa using h

theorem C5_witness :
    (run_turns cenvNoTool jsonLoadsFixture wenvFixture []
      ["Hello", "How are you?", "Tell me a joke"]).length =
      2 * (["Hello", "How are you?", "Tell me a joke"] : List String).length :=
  C5_no_tool_round_trip_length cenvNoTool jsonLoadsFixture wenvFixture
    (fun _ => ⟨some "Hello!", rfl⟩) ["Hello", "How are you?", "Tell me a joke"]
